import Mathlib

/-!
Shallow embedding of the cirrus-uncinus weather-bot core: unit conversion and
classification, meteorological derivation formulas, the cache-aside wrappers
for the two remote data sources, the settings store and its persistence
boundary, and the daily-report scheduling sweep.  Real-valued float
arithmetic of the source is modelled over `ℚ`; Python's `round` (ties to
even) is modelled exactly by `pyRoundInt`/`pyRound`; the transcendental
primitives `math.log` and `math.exp`, which can raise domain or overflow
errors, are modelled as `ℚ → Except Unit ℚ` parameters; a `try/except`
block returning a fallback constant is embedded by returning the fallback
on every exceptional path.
-/

/-- Nearest integer with ties to even, the rounding used by Python `round`. -/
def pyRoundInt (q : ℚ) : ℤ :=
  if q - ⌊q⌋ < 1/2 then ⌊q⌋
  else if 1/2 < q - ⌊q⌋ then ⌊q⌋ + 1
  else if ⌊q⌋ % 2 = 0 then ⌊q⌋ else ⌊q⌋ + 1

/-- Python `round(q, n)`: round to `n` decimal places, ties to even. -/
def pyRound (q : ℚ) (n : ℕ) : ℚ :=
  (pyRoundInt (q * 10 ^ n) : ℚ) / 10 ^ n

/-- Python `int(q)`: truncation toward zero. -/
def pyTrunc (q : ℚ) : ℤ :=
  if q < 0 then -⌊-q⌋ else ⌊q⌋

/-- Scientific constant `VAPOR_PRESSURE_BASE` (hPa). -/
def VAPOR_PRESSURE_BASE : ℚ := 6.112

/-- Scientific constant `VAPOR_PRESSURE_COEFF`. -/
def VAPOR_PRESSURE_COEFF : ℚ := 17.67

/-- Scientific constant `VAPOR_PRESSURE_TEMP_BASE` (°C). -/
def VAPOR_PRESSURE_TEMP_BASE : ℚ := 243.5

/-- Scientific constant `GAS_CONSTANT_DRY_AIR` (J/(kg·K)). -/
def GAS_CONSTANT_DRY_AIR : ℚ := 287.05

/-- Scientific constant `KELVIN_OFFSET`. -/
def KELVIN_OFFSET : ℚ := 273.15

/-- Embedding of `convert_temperature`: convert a Celsius temperature to the
requested display unit, returning the value and its symbol.  The source
branches on `"fahrenheit"` and `"kelvin"` and treats every other unit string
as Celsius in the final `else`. -/
def convert_temperature (temp_c : ℚ) (unit : String) : ℚ × String :=
  if unit = "fahrenheit" then (pyRound (temp_c * 9 / 5 + 32) 1, "°F")
  else if unit = "kelvin" then (pyRound (temp_c + KELVIN_OFFSET) 1, "K")
  else (pyRound temp_c 1, "°C")

/-- Modelled from the spec: `convertTemperature` as section 4.1 words it,
failing with `InvalidUnit` (here `none`) when the unit is not one of the
three enum values. -/
def convertTemperatureSpec (temp_c : ℚ) (unit : String) : Option (ℚ × String) :=
  if unit = "fahrenheit" then some (pyRound (temp_c * 9 / 5 + 32) 1, "°F")
  else if unit = "kelvin" then some (pyRound (temp_c + KELVIN_OFFSET) 1, "K")
  else if unit = "celsius" then some (pyRound temp_c 1, "°C")
  else none

/-- The fixed 16-entry compass table of `cardinal_direction`. -/
def directions : List String :=
  ["N", "NNE", "NE", "ENE", "E", "ESE", "SE", "SSE",
   "S", "SSW", "SW", "WSW", "W", "WNW", "NW", "NNW"]

/-- Embedding of `cardinal_direction`: index the compass table at
`round(degrees / 22.5) % 16` (Python `%` on a positive modulus, i.e. `emod`). -/
def cardinal_direction (degrees : ℚ) : String :=
  directions.getD ((pyRoundInt (degrees / 22.5)).emod 16).toNat ""

/-- The accumulation of the seven Rothfusz regression terms computed at
lines 147-153 of the source (`hi` after the final `-=`). -/
def rothfuszHi (temp_f humidity : ℚ) : ℚ :=
  let hi := -42.379 + 2.04901523 * temp_f + 10.14333127 * humidity
  let hi := hi - 0.22475541 * temp_f * humidity
  let hi := hi - 0.00683783 * temp_f * temp_f
  let hi := hi - 0.05481717 * humidity * humidity
  let hi := hi + 0.00122874 * temp_f * temp_f * humidity
  let hi := hi + 0.00085282 * temp_f * humidity * humidity
  let hi := hi - 0.00000199 * temp_f * temp_f * humidity * humidity
  hi

/-- Embedding of `calculate_heat_index`: below 80 °F the input temperature is
returned unchanged, otherwise the Rothfusz polynomial converted back to °C
and rounded to 2 decimals.  The `except` branch of the source never fires in
the rational model (no float overflow), so it is not represented. -/
def calculate_heat_index (temp_c humidity : ℚ) : ℚ :=
  let temp_f := temp_c * 9 / 5 + 32
  if temp_f < 80 then temp_c
  else pyRound ((rothfuszHi temp_f humidity - 32) * 5 / 9) 2

/-- Embedding of `calculate_dewpoint` (Magnus-Tetens).  `ln` models
`math.log`, which may raise on a nonpositive argument; each exceptional path
of the source's `try` block (zero denominator `b + temp_c`, log domain
error, zero denominator `a - alpha`) lands in the `except` handler and
returns the fallback `0.0`. -/
def calculate_dewpoint (ln : ℚ → Except Unit ℚ) (temp_c humidity : ℚ) : ℚ :=
  let a := VAPOR_PRESSURE_COEFF
  let b := VAPOR_PRESSURE_TEMP_BASE
  if b + temp_c = 0 then 0
  else
    match ln (humidity / 100) with
    | Except.error _ => 0
    | Except.ok l =>
      let alpha := (a * temp_c) / (b + temp_c) + l
      if a - alpha = 0 then 0
      else pyRound ((b * alpha) / (a - alpha)) 2

/-- Embedding of `calculate_air_density`.  `exp` models `math.exp`, which may
raise `OverflowError`; each exceptional path (zero denominator inside the
exponent, exp overflow, zero denominator `GAS_CONSTANT_DRY_AIR * temp_k`)
lands in the `except` handler and returns the fallback `1.225`. -/
def calculate_air_density (exp : ℚ → Except Unit ℚ) (temp_c pressure_hpa humidity : ℚ) : ℚ :=
  let temp_k := temp_c + KELVIN_OFFSET
  if temp_c + VAPOR_PRESSURE_TEMP_BASE = 0 then 1.225
  else
    match exp ((VAPOR_PRESSURE_COEFF * temp_c) / (temp_c + VAPOR_PRESSURE_TEMP_BASE)) with
    | Except.error _ => 1.225
    | Except.ok ex =>
      let es := VAPOR_PRESSURE_BASE * ex
      let e := (humidity / 100) * es
      let pd := pressure_hpa * 100 - e * 100
      if GAS_CONSTANT_DRY_AIR * temp_k = 0 then 1.225
      else pyRound (pd / (GAS_CONSTANT_DRY_AIR * temp_k)) 4

/-- Embedding of `calculate_cloud_base_height` (simplified Hennig formula):
`int(125 * (T - Td))`.  Nothing in the body can raise on rational input, so
the `except` fallback `0` is unreachable in the model. -/
def calculate_cloud_base_height (temp_c dewpoint : ℚ) : ℤ :=
  let spread := temp_c - dewpoint
  let height := 125 * spread
  pyTrunc height

/-- Python `str.lower()` on the character sequence of a string (the source
uses it to case-fold cache keys). -/
def pyLower (s : String) : String := ⟨s.data.map Char.toLower⟩

/-- Cache TTL constant `CACHE_TTL_MINUTES` from the source. -/
def CACHE_TTL_MINUTES : ℤ := 5

/-- `WEATHER_CACHE_TTL = timedelta(minutes=5)`, in seconds. -/
def WEATHER_CACHE_TTL : ℤ := CACHE_TTL_MINUTES * 60

/-- `NASA_CACHE_TTL = timedelta(hours=12)`, in seconds. -/
def NASA_CACHE_TTL : ℤ := 12 * 60 * 60

/-- Python dict assignment `d[k] = v` on an association list: the new pair
replaces any prior entry under the same key. -/
def dictInsert {κ α : Type} [BEq κ] (c : List (κ × α)) (k : κ) (v : α) :
    List (κ × α) :=
  (k, v) :: c.eraseP (fun p => p.1 == k)

/-- Embedding of `get_weather`, with the network call abstracted: `fetch` is
the outcome the remote weather API would produce at this moment (`none` for
any raised exception), `now` the current time in seconds, `cache` the
`weather_cache` dict.  Returns the result handed to the caller, the cache
after the call, and whether the remote API was invoked. -/
def get_weather {δ : Type} (cache : List (String × δ × ℤ)) (fetch : Option δ)
    (now : ℤ) (city : String) : Option δ × List (String × δ × ℤ) × Bool :=
  let cache_key := pyLower city
  let hit : Option δ :=
    match cache.lookup cache_key with
    | some (d, ts) => if now - ts < WEATHER_CACHE_TTL then some d else none
    | none => none
  match hit with
  | some d => (some d, cache, false)
  | none =>
    match fetch with
    | some v => (some v, dictInsert cache cache_key (v, now), true)
    | none => (none, cache, true)

/-- Embedding of `get_nasa_image`: same cache-aside shape over the single
`nasa_cache` cell (one fixed key), TTL 12 hours. -/
def get_nasa_image {ν : Type} (cache : Option (ν × ℤ)) (fetch : Option ν)
    (now : ℤ) : Option ν × Option (ν × ℤ) × Bool :=
  let hit : Option ν :=
    match cache with
    | some (d, ts) => if now - ts < NASA_CACHE_TTL then some d else none
    | none => none
  match hit with
  | some d => (some d, cache, false)
  | none =>
    match fetch with
    | some v => (some v, some (v, now), true)
    | none => (none, cache, true)

/-- Persistent per-user station configuration (`user_settings` values). -/
structure StationSettings where
  city : String
  country : String
  lat : ℚ
  lon : ℚ
  tz : String
  temp_unit : String
  report_hour : ℤ
deriving DecidableEq

/-- The observation record assembled by `get_weather` from the API payload. -/
structure WeatherObs where
  temp : ℚ
  feels_like : ℚ
  pressure : ℚ
  humidity : ℚ
  clouds : ℚ
  wind_speed : ℚ
  wind_deg : ℚ
  visibility : ℤ
  description : String
  condition_id : ℤ
  lat : ℚ
  lon : ℚ
  city_name : String
  country : String
deriving DecidableEq

/-- Python `str.strip()` (whitespace on both ends), used by `setlocation`. -/
def pyStrip (s : String) : String :=
  ⟨((s.data.dropWhile Char.isWhitespace).reverse.dropWhile Char.isWhitespace).reverse⟩

/-- Outcome reported to the user by the `setlocation` command. -/
inductive SetlocOutcome
  | invalidCity
  | fetchFailed
  | configured
deriving DecidableEq

/-- Embedding of the `setlocation` command body: validate the city string,
resolve it through the weather fetch (abstracted as `fetch`), and on success
overwrite the user's record with a freshly built one (`temp_unit` celsius,
`report_hour` 8) and save.  The returned `Bool` records whether
`save_user_settings` was triggered. -/
def setlocation (store : List (ℕ × StationSettings)) (uid : ℕ) (city : String)
    (fetch : Option WeatherObs) (tzOf : ℚ → ℚ → String) :
    List (ℕ × StationSettings) × Bool × SetlocOutcome :=
  let city := pyStrip city
  if city.length = 0 ∨ 100 < city.length then (store, false, SetlocOutcome.invalidCity)
  else
    match fetch with
    | none => (store, false, SetlocOutcome.fetchFailed)
    | some r =>
      let tz_str := tzOf r.lat r.lon
      let fresh : StationSettings :=
        { city := r.city_name, country := r.country, lat := r.lat, lon := r.lon,
          tz := tz_str, temp_unit := "celsius", report_hour := 8 }
      (dictInsert store uid fresh, true, SetlocOutcome.configured)

/-- Outcome reported to the user by the `settings` command. -/
inductive SettingsOutcome
  | notConfigured
  | rejectedHour
  | shown
  | updated
deriving DecidableEq

/-- Embedding of the `settings` command body.  The Python code mutates the
user's dict in place: a supplied temperature unit is written *before* the
report hour is validated, so an out-of-range hour returns with the unit
change already applied to the in-memory record (`store1`) and no save.  The
returned `Bool` records whether `save_user_settings` was triggered. -/
def settings (store : List (ℕ × StationSettings)) (uid : ℕ)
    (temperature_unit : Option String) (report_hour : Option ℤ) :
    List (ℕ × StationSettings) × Bool × SettingsOutcome :=
  match store.lookup uid with
  | none => (store, false, SettingsOutcome.notConfigured)
  | some s0 =>
    let s1 :=
      match temperature_unit with
      | some u => { s0 with temp_unit := u }
      | none => s0
    let store1 :=
      match temperature_unit with
      | some _ => dictInsert store uid s1
      | none => store
    match report_hour with
    | some h =>
      if h < 0 ∨ 23 < h then (store1, false, SettingsOutcome.rejectedHour)
      else (dictInsert store1 uid { s1 with report_hour := h }, true,
            SettingsOutcome.updated)
    | none =>
      if temperature_unit.isSome then (store1, true, SettingsOutcome.updated)
      else (store1, false, SettingsOutcome.shown)

/-- Decimal digits of `n`, most significant first (Python `str` on a
nonnegative int). -/
def toDigits (n : ℕ) : List ℕ :=
  if _h : n < 10 then [n]
  else toDigits (n / 10) ++ [n % 10]
decreasing_by exact Nat.div_lt_self (by omega) (by omega)

/-- Decimal value of a digit list, most significant first (Python `int` on a
decimal string). -/
def fromDigits (l : List ℕ) : ℕ :=
  l.foldl (fun acc d => 10 * acc + d) 0

/-- Python `str(n)` for a nonnegative int. -/
def natToStr (n : ℕ) : String := ⟨(toDigits n).map Nat.digitChar⟩

/-- Python `int(s)` for a decimal digit string. -/
def strToNat (s : String) : ℕ :=
  fromDigits (s.data.map fun c => c.toNat - 48)

/-- Embedding of `save_user_settings`: the on-disk JSON object, keys
converted `str(k)` (the file write itself is the external persistence
collaborator). -/
def save_user_settings (m : List (ℕ × StationSettings)) :
    List (String × StationSettings) :=
  m.map fun p => (natToStr p.1, p.2)

/-- Embedding of `load_user_settings` applied to an existing on-disk object:
keys converted back with `int(k)`. -/
def load_user_settings (data : List (String × StationSettings)) :
    List (ℕ × StationSettings) :=
  data.map fun p => (strToNat p.1, p.2)

/-- The report-window test of `check_and_send_reports` line 760:
`local_time.hour == report_hour and local_time.minute < 5`. -/
def sendsReport (report_hour : ℤ) (hour minute : ℕ) : Bool :=
  ((hour : ℤ) == report_hour) && decide (minute < 5)

/-- The 288 wall-clock times at which the scheduler job fires in a day:
`minute='*/5'` cron, i.e. every (hour, minute) with minute a multiple of 5. -/
def sweepTicks : List (ℕ × ℕ) :=
  (List.range 24).flatMap fun h => (List.range 12).map fun i => (h, 5 * i)

/-- Per-user result of one sweep cycle. -/
inductive UserSweepResult
  | sent
  | skippedWindow
  | failed
deriving DecidableEq

/-- Embedding of `check_and_send_reports`: iterate over all configured
users; for each, look up the local time from the stored timezone
(`localTimeOf`, which may fail), test the report window, and deliver
(`deliver`, which may fail).  Every raised error is caught by the per-user
`try/except` (or inside `send_daily_report`), recorded for that user alone,
and the loop continues; the settings store is not modified.  This is the
body of the per-user loop iteration. -/
def userSweepStep (localTimeOf : ℕ → Except Unit (ℕ × ℕ))
    (deliver : ℕ → Except Unit Unit) (u : ℕ × StationSettings) : UserSweepResult :=
  match localTimeOf u.1 with
  | Except.error _ => UserSweepResult.failed
  | Except.ok (h, m) =>
    if sendsReport u.2.report_hour h m then
      match deliver u.1 with
      | Except.error _ => UserSweepResult.failed
      | Except.ok _ => UserSweepResult.sent
    else UserSweepResult.skippedWindow

/-- The sweep is the per-user step mapped over the settings map. -/
def check_and_send_reports (localTimeOf : ℕ → Except Unit (ℕ × ℕ))
    (deliver : ℕ → Except Unit Unit)
    (users : List (ℕ × StationSettings)) : List (ℕ × UserSweepResult) :=
  users.map fun u => (u.1, userSweepStep localTimeOf deliver u)

/-- A concrete settings record used by witnesses. -/
def sampleStation : StationSettings :=
  { city := "Paris", country := "FR", lat := 48, lon := 2,
    tz := "Europe/Paris", temp_unit := "celsius", report_hour := 8 }

/-- A concrete observation record used by witnesses. -/
def sampleObs : WeatherObs :=
  { temp := 21, feels_like := 20, pressure := 1013, humidity := 50, clouds := 40,
    wind_speed := 3, wind_deg := 200, visibility := 10000,
    description := "clear sky", condition_id := 800, lat := 48, lon := 2,
    city_name := "Paris", country := "FR" }

lemma lookup_dictInsert_self {κ α : Type} [BEq κ] [LawfulBEq κ]
    (c : List (κ × α)) (k : κ) (v : α) :
    (dictInsert c k v).lookup k = some v := by
  simp [dictInsert, List.lookup]

lemma lookup_eraseP_ne {κ α : Type} [BEq κ] [LawfulBEq κ]
    (c : List (κ × α)) (k key : κ) (h : k ≠ key) :
    (c.eraseP fun p => p.1 == key).lookup k = c.lookup k := by
  induction c with
  | nil => rfl
  | cons hd tl ih =>
    by_cases hk : hd.1 == key
    · have hk1 : hd.1 = key := by simpa using hk
      have hne : (k == hd.1) = false := by
        simp only [beq_eq_false_iff_ne, ne_eq]
        intro hkk
        exact h (hkk.trans hk1)
      simp [List.eraseP_cons, hk, List.lookup, hne]
    · by_cases hkh : k == hd.1
      · simp [List.eraseP_cons, hk, List.lookup, hkh]
      · simp [List.eraseP_cons, hk, List.lookup, hkh, ih]

lemma lookup_dictInsert_ne {κ α : Type} [BEq κ] [LawfulBEq κ]
    (c : List (κ × α)) (k key : κ) (v : α) (h : k ≠ key) :
    (dictInsert c key v).lookup k = c.lookup k := by
  have hne : (k == key) = false := by simpa using h
  simp [dictInsert, List.lookup, hne, lookup_eraseP_ne c k key h]

lemma toDigits_lt_ten : ∀ n : ℕ, ∀ d ∈ toDigits n, d < 10 := by
  intro n
  induction n using Nat.strong_induction_on with
  | _ n ih =>
    rw [toDigits]
    by_cases h : n < 10
    · rw [dif_pos h]
      intro d hd
      rw [List.mem_singleton] at hd
      omega
    · rw [dif_neg h]
      intro d hd
      rcases List.mem_append.mp hd with hd1 | hd1
      · exact ih (n / 10) (Nat.div_lt_self (by omega) (by omega)) d hd1
      · rw [List.mem_singleton] at hd1
        subst hd1
        exact Nat.mod_lt _ (by omega)

lemma fromDigits_append_digit (l : List ℕ) (d : ℕ) :
    fromDigits (l ++ [d]) = 10 * fromDigits l + d := by
  simp [fromDigits, List.foldl_append]

lemma fromDigits_toDigits : ∀ n : ℕ, fromDigits (toDigits n) = n := by
  intro n
  induction n using Nat.strong_induction_on with
  | _ n ih =>
    rw [toDigits]
    by_cases h : n < 10
    · rw [dif_pos h]
      simp [fromDigits]
    · rw [dif_neg h, fromDigits_append_digit,
        ih (n / 10) (Nat.div_lt_self (by omega) (by omega))]
      omega

lemma digitChar_roundtrip (d : ℕ) (h : d < 10) :
    (Nat.digitChar d).toNat - 48 = d := by
  interval_cases d <;> rfl

lemma strToNat_natToStr (n : ℕ) : strToNat (natToStr n) = n := by
  have hmap : ((toDigits n).map Nat.digitChar).map (fun c => c.toNat - 48) = toDigits n := by
    rw [List.map_map]
    have : ∀ d ∈ toDigits n, (Nat.digitChar d).toNat - 48 = d := fun d hd =>
      digitChar_roundtrip d (toDigits_lt_ten n d hd)
    calc (toDigits n).map (fun d => (Nat.digitChar d).toNat - 48)
        = (toDigits n).map id := List.map_congr_left this
      _ = toDigits n := List.map_id _
  simp only [strToNat, natToStr, hmap, fromDigits_toDigits]

/-- C5: saving the settings mapping and loading it back reconstructs an equal
mapping — the same integer user identifiers (despite string-typed keys on
disk) and field-for-field equal records. -/
theorem c5_settings_round_trip (m : List (ℕ × StationSettings)) :
    load_user_settings (save_user_settings m) = m := by
  simp only [load_user_settings, save_user_settings, List.map_map]
  have hpt : ∀ p : ℕ × StationSettings,
      ((fun p : String × StationSettings => (strToNat p.1, p.2)) ∘
        fun p : ℕ × StationSettings => (natToStr p.1, p.2)) p = id p := by
    intro p
    simp [strToNat_natToStr]
  rw [List.map_congr_left fun p _ => hpt p, List.map_id]

/-- C4 counterexample: on the non-enum unit `"banana"` the code returns the
Celsius conversion instead of failing, diverging from the spec-modelled
`convertTemperatureSpec`, which rejects it. -/
theorem c4_counterexample :
    convert_temperature 25 "banana" = (25, "°C") ∧
    convertTemperatureSpec 25 "banana" = none := by
  constructor
  · norm_num +decide [convert_temperature, pyRound, pyRoundInt]
  · norm_num +decide [convertTemperatureSpec]

/-- C4 (amended): for the enum units `"fahrenheit"` and `"kelvin"` the
documented linear transforms are returned with their symbols; every other
unit string — `"celsius"` and unknown units alike — is treated as Celsius
(identity rounded to 1 decimal); the function is total and never fails. -/
theorem c4_amended_unknown_units_default_to_celsius (t : ℚ) (u : String) :
    (u = "fahrenheit" → convert_temperature t u = (pyRound (t * 9 / 5 + 32) 1, "°F")) ∧
    (u = "kelvin" → convert_temperature t u = (pyRound (t + KELVIN_OFFSET) 1, "K")) ∧
    (u ≠ "fahrenheit" → u ≠ "kelvin" → convert_temperature t u = (pyRound t 1, "°C")) := by
  refine ⟨fun h => ?_, fun h => ?_, fun h1 h2 => ?_⟩
  · simp [convert_temperature, h]
  · simp [convert_temperature, h]
  · simp [convert_temperature, h1, h2]

/-- Witness for the amended C4 at the concrete unknown unit `"banana"`. -/
theorem c4_amended_witness :
    convert_temperature 25 "banana" = (pyRound 25 1, "°C") :=
  (c4_amended_unknown_units_default_to_celsius 25 "banana").2.2 (by decide) (by decide)

/-- C7: whenever the Fahrenheit conversion of the input temperature is
strictly below 80, the heat index is the input temperature returned exactly;
at or above 80 °F it is the 7-term Rothfusz polynomial converted back to °C
and rounded to 2 decimals. -/
theorem c7_heat_index_short_circuit (t h : ℚ) :
    (t * 9 / 5 + 32 < 80 → calculate_heat_index t h = t) ∧
    (80 ≤ t * 9 / 5 + 32 →
      calculate_heat_index t h =
        pyRound ((rothfuszHi (t * 9 / 5 + 32) h - 32) * 5 / 9) 2) := by
  constructor
  · intro hlt
    simp [calculate_heat_index, hlt]
  · intro hge
    simp [calculate_heat_index, not_lt.mpr hge]

/-- Witness for C7: 25 °C (77 °F) is below the threshold and returned
unchanged at any humidity; 30 °C (86 °F) takes the polynomial branch. -/
theorem c7_witness :
    calculate_heat_index 25 90 = 25 ∧
    calculate_heat_index 30 70 =
      pyRound ((rothfuszHi (30 * 9 / 5 + 32) 70 - 32) * 5 / 9) 2 :=
  ⟨(c7_heat_index_short_circuit 25 90).1 (by norm_num),
   (c7_heat_index_short_circuit 30 70).2 (by norm_num)⟩

/-- C9: for every direction in 0–359 degrees the label is a compass point of
the fixed 16-entry table at index `round(degrees / 22.5) mod 16`, and the
four pinned values hold, with 354° wrapping around to `"N"`. -/
theorem c9_cardinal_direction_mapping :
    (∀ d : ℚ, 0 ≤ d → d ≤ 359 → cardinal_direction d ∈ directions) ∧
    cardinal_direction 0 = "N" ∧ cardinal_direction 354 = "N" ∧
    cardinal_direction 90 = "E" ∧ cardinal_direction 180 = "S" := by
  refine ⟨?_, ?_, ?_, ?_, ?_⟩
  · intro d _ _
    unfold cardinal_direction
    have h0 : 0 ≤ (pyRoundInt (d / 22.5)).emod 16 := Int.emod_nonneg _ (by norm_num)
    have h1 : (pyRoundInt (d / 22.5)).emod 16 < 16 := Int.emod_lt_of_pos _ (by norm_num)
    obtain ⟨i, himod⟩ : ∃ i : ℕ, ((pyRoundInt (d / 22.5)).emod 16).toNat = i := ⟨_, rfl⟩
    rw [himod]
    have hlt : i < 16 := by omega
    interval_cases i <;> decide
  all_goals
    norm_num [cardinal_direction, pyRoundInt]
    rfl

/-- Witness for C9 at the concrete direction 90°. -/
theorem c9_witness : cardinal_direction 90 ∈ directions :=
  c9_cardinal_direction_mapping.1 90 (by norm_num) (by norm_num)

/-- C8: the derivation functions are total (they are plain functions of their
rational inputs) and return their documented fallback constants on
numerically degenerate input: dewpoint returns 0.0 when humidity ≤ 0 (log
domain error) or when either denominator — `b + temp_c` or `a - alpha` —
reaches 0; air density returns 1.225 kg/m³ when a denominator reaches 0
(T = −243.5 °C or T = −273.15 °C) or when `math.exp` overflows; cloud base
height is total, always the truncation of `125·(T − Td)`. -/
theorem c8_derivation_fallbacks (ln exp : ℚ → Except Unit ℚ) (t h p td : ℚ) :
    (VAPOR_PRESSURE_TEMP_BASE + t = 0 → calculate_dewpoint ln t h = 0) ∧
    ((∀ x : ℚ, x ≤ 0 → ln x = Except.error ()) → h ≤ 0 →
      calculate_dewpoint ln t h = 0) ∧
    (∀ l : ℚ, ln (h / 100) = Except.ok l →
      VAPOR_PRESSURE_COEFF -
          ((VAPOR_PRESSURE_COEFF * t) / (VAPOR_PRESSURE_TEMP_BASE + t) + l) = 0 →
      calculate_dewpoint ln t h = 0) ∧
    (t + VAPOR_PRESSURE_TEMP_BASE = 0 → calculate_air_density exp t p h = 1.225) ∧
    (exp ((VAPOR_PRESSURE_COEFF * t) / (t + VAPOR_PRESSURE_TEMP_BASE)) = Except.error () →
      calculate_air_density exp t p h = 1.225) ∧
    (t + KELVIN_OFFSET = 0 → calculate_air_density exp t p h = 1.225) ∧
    calculate_cloud_base_height t td = pyTrunc (125 * (t - td)) := by
  refine ⟨fun hb => ?_, fun hln hh => ?_, fun l hok hden => ?_,
          fun hb => ?_, fun hexp => ?_, fun hk => ?_, rfl⟩
  · simp [calculate_dewpoint, hb]
  · by_cases hb : VAPOR_PRESSURE_TEMP_BASE + t = 0
    · simp [calculate_dewpoint, hb]
    · have herr : ln (h / 100) = Except.error () :=
        hln _ (div_nonpos_iff.mpr (Or.inr ⟨hh, by norm_num⟩))
      simp [calculate_dewpoint, hb, herr]
  · by_cases hb : VAPOR_PRESSURE_TEMP_BASE + t = 0
    · simp [calculate_dewpoint, hb]
    · simp [calculate_dewpoint, hb, hok, hden]
  · simp [calculate_air_density, hb]
  · by_cases hb : t + VAPOR_PRESSURE_TEMP_BASE = 0
    · simp [calculate_air_density, hb]
    · simp [calculate_air_density, hb, hexp]
  · by_cases hb : t + VAPOR_PRESSURE_TEMP_BASE = 0
    · simp [calculate_air_density, hb]
    · cases hc : exp ((VAPOR_PRESSURE_COEFF * t) / (t + VAPOR_PRESSURE_TEMP_BASE)) with
      | error e => simp [calculate_air_density, hb, hc]
      | ok ex =>
        have hz : GAS_CONSTANT_DRY_AIR * (t + KELVIN_OFFSET) = 0 := by
          rw [hk, mul_zero]
        simp [calculate_air_density, hb, hc, hz]

/-- Witness for C8 at concrete degenerate inputs: dewpoint at T = −243.5 °C,
at zero humidity, and at a zero `a − alpha` denominator; air density under
exp overflow and at T = −273.15 °C. -/
theorem c8_witness :
    calculate_dewpoint (fun _ => Except.error ()) (-243.5) 50 = 0 ∧
    calculate_dewpoint (fun _ => Except.error ()) 20 0 = 0 ∧
    calculate_dewpoint (fun _ => Except.ok 17.67) 0 50 = 0 ∧
    calculate_air_density (fun _ => Except.error ()) 20 1013 50 = 1.225 ∧
    calculate_air_density (fun _ => Except.ok 1) (-273.15) 1013 50 = 1.225 := by
  refine ⟨?_, ?_, ?_, ?_, ?_⟩
  · exact (c8_derivation_fallbacks (fun _ => Except.error ()) (fun _ => Except.error ())
      (-243.5) 50 1013 0).1 (by norm_num [VAPOR_PRESSURE_TEMP_BASE])
  · exact (c8_derivation_fallbacks (fun _ => Except.error ()) (fun _ => Except.error ())
      20 0 1013 0).2.1 (fun x _ => rfl) le_rfl
  · exact (c8_derivation_fallbacks (fun _ => Except.ok 17.67) (fun _ => Except.error ())
      0 50 1013 0).2.2.1 17.67 rfl
      (by norm_num [VAPOR_PRESSURE_COEFF, VAPOR_PRESSURE_TEMP_BASE])
  · exact (c8_derivation_fallbacks (fun _ => Except.error ()) (fun _ => Except.error ())
      20 50 1013 0).2.2.2.2.1 rfl
  · exact (c8_derivation_fallbacks (fun _ => Except.error ()) (fun _ => Except.ok 1)
      (-273.15) 50 1013 0).2.2.2.2.2.1 (by norm_num [KELVIN_OFFSET])

/-- C2: the window test fires exactly at (hour = report hour, minute < 5);
over the full day of 5-minute-boundary cron ticks exactly one tick matches
(for a valid 0–23 report hour); no tick with minute ≥ 5 ever matches; on
boundary ticks the match is unique (hour = report hour, minute = 0), so at
most one report per local day; a day of ticks that skips the sub-5-minute
window entirely yields zero matches; and within the sweep, a user whose
local time misses the window is exactly the `skippedWindow` outcome. -/
theorem c2_scheduler_at_most_once_per_day (rh : ℤ) :
    (0 ≤ rh → rh < 24 →
      (sweepTicks.filter fun t => sendsReport rh t.1 t.2).length = 1) ∧
    (∀ h m : ℕ, 5 ≤ m → sendsReport rh h m = false) ∧
    (∀ h m : ℕ, m % 5 = 0 → (sendsReport rh h m = true ↔ (h : ℤ) = rh ∧ m = 0)) ∧
    (∀ ticks : List (ℕ × ℕ), (∀ t ∈ ticks, (t.1 : ℤ) = rh → 5 ≤ t.2) →
      (ticks.filter fun t => sendsReport rh t.1 t.2).length = 0) ∧
    (∀ (dv : ℕ → Except Unit Unit) (uid : ℕ) (s : StationSettings) (h m : ℕ),
      s.report_hour = rh →
      (userSweepStep (fun _ => Except.ok (h, m)) dv (uid, s) =
          UserSweepResult.skippedWindow ↔ sendsReport rh h m = false)) := by
  refine ⟨fun h0 h24 => ?_, fun h m hm => ?_, fun h m hm => ?_,
          fun ticks hticks => ?_, fun dv uid s h m hrh => ?_⟩
  · have key : ∀ n : ℕ, n < 24 →
        (sweepTicks.filter fun t => sendsReport (n : ℤ) t.1 t.2).length = 1 := by
      decide
    have hkey := key rh.toNat (by omega)
    rwa [Int.toNat_of_nonneg h0] at hkey
  · simp only [sendsReport, Bool.and_eq_false_iff, decide_eq_false_iff_not]
    right
    omega
  · simp only [sendsReport, Bool.and_eq_true, beq_iff_eq, decide_eq_true_eq]
    constructor
    · rintro ⟨ha, hb⟩
      exact ⟨ha, by omega⟩
    · rintro ⟨ha, hb⟩
      exact ⟨ha, by omega⟩
  · have hnil : (ticks.filter fun t => sendsReport rh t.1 t.2) = [] := by
      rw [List.filter_eq_nil_iff]
      intro t ht
      have hw := hticks t ht
      simp only [sendsReport, Bool.and_eq_true, beq_iff_eq, decide_eq_true_eq, not_and]
      intro ha
      omega
    simp [hnil]
  · simp only [userSweepStep, hrh]
    cases hs : sendsReport rh h m
    · simp
    · cases hdv : dv uid <;> simp [hdv]

/-- Witness for C2: with report hour 8, exactly one of the day's 288 cron
ticks matches the window. -/
theorem c2_witness :
    (sweepTicks.filter fun t => sendsReport 8 t.1 t.2).length = 1 :=
  (c2_scheduler_at_most_once_per_day 8).1 (by norm_num) (by norm_num)

/-- C6: the sweep evaluates every configured user (output has one outcome
per user, in order); each user's outcome is exactly the per-user step
applied to that user alone; and if two environments (timezone lookup and
report delivery, each of which may fail) agree on one user, the sweep's
outcome for that user is identical no matter how the environments behave —
including failing — on every other user.  The sweep returns no modified
store, so a failure leaves no persistent state and the user is simply
re-evaluated on the next cycle. -/
theorem c6_per_user_failure_isolation
    (lt1 lt2 : ℕ → Except Unit (ℕ × ℕ)) (dv1 dv2 : ℕ → Except Unit Unit)
    (users : List (ℕ × StationSettings)) (i : ℕ) (u : ℕ × StationSettings) :
    (check_and_send_reports lt1 dv1 users).length = users.length ∧
    (users[i]? = some u →
      (check_and_send_reports lt1 dv1 users)[i]? =
        some (u.1, userSweepStep lt1 dv1 u)) ∧
    (users[i]? = some u → lt1 u.1 = lt2 u.1 → dv1 u.1 = dv2 u.1 →
      (check_and_send_reports lt1 dv1 users)[i]? =
        (check_and_send_reports lt2 dv2 users)[i]?) := by
  refine ⟨by simp [check_and_send_reports], fun hu => ?_, fun hu hl hd => ?_⟩
  · simp [check_and_send_reports, List.getElem?_map, hu]
  · have hstep : userSweepStep lt1 dv1 u = userSweepStep lt2 dv2 u := by
      unfold userSweepStep
      rw [hl, hd]
    simp [check_and_send_reports, List.getElem?_map, hu, hstep]

/-- Witness for C6: in a two-user sweep where the timezone lookup fails for
user 1 under the first environment but not the second, user 2's outcome is
unaffected. -/
theorem c6_witness :
    (check_and_send_reports
        (fun n => if n = 1 then Except.error () else Except.ok (8, 3))
        (fun _ => Except.ok ()) [(1, sampleStation), (2, sampleStation)])[1]? =
      (check_and_send_reports (fun _ => Except.ok (8, 3))
        (fun _ => Except.ok ()) [(1, sampleStation), (2, sampleStation)])[1]? :=
  (c6_per_user_failure_isolation
      (fun n => if n = 1 then Except.error () else Except.ok (8, 3))
      (fun _ => Except.ok (8, 3))
      (fun _ => Except.ok ()) (fun _ => Except.ok ())
      [(1, sampleStation), (2, sampleStation)] 1 (2, sampleStation)).2.2
    rfl rfl rfl

/-- C3 counterexample: a single call carrying both a valid unit change
(`kelvin`) and an out-of-range hour (99) is rejected with no save, yet the
stored record is *not* left as it was: the temperature unit has already been
written to the in-memory record when the hour check fires. -/
theorem c3_counterexample :
    (settings [(1, sampleStation)] 1 (some "kelvin") (some 99)).2.2 =
        SettingsOutcome.rejectedHour ∧
    (settings [(1, sampleStation)] 1 (some "kelvin") (some 99)).2.1 = false ∧
    sampleStation.temp_unit = "celsius" ∧
    ((settings [(1, sampleStation)] 1 (some "kelvin") (some 99)).1.lookup 1).map
        StationSettings.temp_unit = some "kelvin" := by
  refine ⟨rfl, rfl, rfl, rfl⟩

/-- C3 (amended): a settings-update call with an out-of-range hour is
rejected, reported as `rejectedHour`, triggers no save, and leaves the
report hour unchanged; but a temperature-unit change carried in the same
call has already been applied to the in-memory record by the time of the
rejection (when no unit is supplied, the store really is untouched). -/
theorem c3_amended_reject_after_unit_write
    (store : List (ℕ × StationSettings)) (uid : ℕ) (tu : Option String) (h : ℤ)
    (s0 : StationSettings) (hs : store.lookup uid = some s0)
    (hbad : h < 0 ∨ 23 < h) :
    (settings store uid tu (some h)).2.2 = SettingsOutcome.rejectedHour ∧
    (settings store uid tu (some h)).2.1 = false ∧
    (settings store uid tu (some h)).1.lookup uid =
      some (match tu with
            | some u => { s0 with temp_unit := u }
            | none => s0) ∧
    (tu = none → (settings store uid tu (some h)).1 = store) := by
  cases tu with
  | none =>
    refine ⟨?_, ?_, ?_, fun _ => ?_⟩ <;>
      simp [settings, hs, hbad]
  | some u =>
    refine ⟨?_, ?_, ?_, fun hc => by cases hc⟩ <;>
      simp [settings, hs, hbad, lookup_dictInsert_self]

/-- Witness for the amended C3 at the concrete call of the counterexample. -/
theorem c3_amended_witness :
    (settings [(1, sampleStation)] 1 (some "kelvin") (some 99)).2.2 =
        SettingsOutcome.rejectedHour ∧
    (settings [(1, sampleStation)] 1 (some "kelvin") (some 99)).2.1 = false ∧
    (settings [(1, sampleStation)] 1 (some "kelvin") (some 99)).1.lookup 1 =
      some { sampleStation with temp_unit := "kelvin" } ∧
    (some "kelvin" = none →
      (settings [(1, sampleStation)] 1 (some "kelvin") (some 99)).1 =
        [(1, sampleStation)]) :=
  c3_amended_reject_after_unit_write [(1, sampleStation)] 1 (some "kelvin") 99
    sampleStation rfl (by norm_num)

/-- C10: for a user who already has a stored record, a successful location
registration overwrites the whole record with a freshly built one — the
temperature unit is reset to celsius and the report hour to 8, whatever the
old record held — and a save is triggered. -/
theorem c10_reregistration_resets_preferences
    (store : List (ℕ × StationSettings)) (uid : ℕ) (city : String)
    (r : WeatherObs) (tzOf : ℚ → ℚ → String) (s0 : StationSettings)
    (_hs : store.lookup uid = some s0)
    (h1 : (pyStrip city).length ≠ 0) (h2 : (pyStrip city).length ≤ 100) :
    (setlocation store uid city (some r) tzOf).2.1 = true ∧
    (setlocation store uid city (some r) tzOf).2.2 = SetlocOutcome.configured ∧
    (setlocation store uid city (some r) tzOf).1.lookup uid =
      some { city := r.city_name, country := r.country, lat := r.lat,
             lon := r.lon, tz := tzOf r.lat r.lon, temp_unit := "celsius",
             report_hour := 8 } := by
  have hcond : ¬((pyStrip city).length = 0 ∨ 100 < (pyStrip city).length) := by
    omega
  refine ⟨?_, ?_, ?_⟩ <;>
    simp [setlocation, hcond, lookup_dictInsert_self]

/-- Witness for C10: re-registering user 1, whose stored record is
`sampleStation`, resets the unit and hour fields of the stored record. -/
theorem c10_witness :
    (setlocation [(1, sampleStation)] 1 " Paris " (some sampleObs)
        (fun _ _ => "Europe/Paris")).2.1 = true ∧
    (setlocation [(1, sampleStation)] 1 " Paris " (some sampleObs)
        (fun _ _ => "Europe/Paris")).2.2 = SetlocOutcome.configured ∧
    (setlocation [(1, sampleStation)] 1 " Paris " (some sampleObs)
        (fun _ _ => "Europe/Paris")).1.lookup 1 =
      some { city := sampleObs.city_name, country := sampleObs.country,
             lat := sampleObs.lat, lon := sampleObs.lon,
             tz := "Europe/Paris", temp_unit := "celsius", report_hour := 8 } :=
  c10_reregistration_resets_preferences [(1, sampleStation)] 1 " Paris "
    sampleObs (fun _ _ => "Europe/Paris") sampleStation rfl
    (by decide) (by decide)

/-- C1: cache-aside contract for both instances.  Weather (key = case-folded
place name, TTL 5 min): a cached entry younger than the TTL is returned
without invoking the fetch and without touching the cache; otherwise the
fetch runs, and on success `(value, now)` is stored under the key
(overwriting any prior entry, all other keys untouched) and the value
returned, while on failure nothing is written or evicted, failure is
reported, and an immediate retry invokes the fetch again.  The astronomy
image (single fixed cell, TTL 12 h) satisfies the same contract. -/
theorem c1_cache_aside_contract {δ ν : Type} (wcache : List (String × δ × ℤ))
    (ncache : Option (ν × ℤ)) (wfetch : Option δ) (nfetch : Option ν)
    (now ts : ℤ) (city : String) (d : δ) (v : ν) :
    (wcache.lookup (pyLower city) = some (d, ts) → now - ts < WEATHER_CACHE_TTL →
      get_weather wcache wfetch now city = (some d, wcache, false)) ∧
    ((∀ p : δ × ℤ, wcache.lookup (pyLower city) = some p →
        WEATHER_CACHE_TTL ≤ now - p.2) →
      wfetch = some d →
      get_weather wcache wfetch now city =
        (some d, dictInsert wcache (pyLower city) (d, now), true) ∧
      (dictInsert wcache (pyLower city) (d, now)).lookup (pyLower city) =
        some (d, now) ∧
      (∀ k : String, k ≠ pyLower city →
        (dictInsert wcache (pyLower city) (d, now)).lookup k = wcache.lookup k)) ∧
    ((∀ p : δ × ℤ, wcache.lookup (pyLower city) = some p →
        WEATHER_CACHE_TTL ≤ now - p.2) →
      wfetch = none →
      get_weather wcache wfetch now city = (none, wcache, true) ∧
      (∀ f2 : Option δ, (get_weather wcache f2 now city).2.2 = true)) ∧
    (ncache = some (v, ts) → now - ts < NASA_CACHE_TTL →
      get_nasa_image ncache nfetch now = (some v, ncache, false)) ∧
    ((∀ p : ν × ℤ, ncache = some p → NASA_CACHE_TTL ≤ now - p.2) →
      nfetch = some v →
      get_nasa_image ncache nfetch now = (some v, some (v, now), true)) ∧
    ((∀ p : ν × ℤ, ncache = some p → NASA_CACHE_TTL ≤ now - p.2) →
      nfetch = none →
      get_nasa_image ncache nfetch now = (none, ncache, true) ∧
      (∀ f2 : Option ν, (get_nasa_image ncache f2 now).2.2 = true)) := by
  have wmiss : (∀ p : δ × ℤ, wcache.lookup (pyLower city) = some p →
      WEATHER_CACHE_TTL ≤ now - p.2) →
      (match wcache.lookup (pyLower city) with
        | some (d0, ts0) => if now - ts0 < WEATHER_CACHE_TTL then some d0 else none
        | none => none) = (none : Option δ) := by
    intro hmiss
    cases hlk : wcache.lookup (pyLower city) with
    | none => rfl
    | some p =>
      obtain ⟨d0, ts0⟩ := p
      have hle := hmiss (d0, ts0) hlk
      simp [not_lt.mpr hle]
  have nmiss : (∀ p : ν × ℤ, ncache = some p → NASA_CACHE_TTL ≤ now - p.2) →
      (match ncache with
        | some (d0, ts0) => if now - ts0 < NASA_CACHE_TTL then some d0 else none
        | none => none) = (none : Option ν) := by
    intro hmiss
    cases hlk : ncache with
    | none => rfl
    | some p =>
      obtain ⟨d0, ts0⟩ := p
      have hle := hmiss (d0, ts0) hlk
      simp [not_lt.mpr hle]
  refine ⟨fun hl hf => ?_, fun hmiss hf => ?_, fun hmiss hf => ?_,
          fun hl hf => ?_, fun hmiss hf => ?_, fun hmiss hf => ?_⟩
  · simp [get_weather, hl, hf]
  · refine ⟨?_, lookup_dictInsert_self _ _ _,
      fun k hk => lookup_dictInsert_ne _ _ _ _ hk⟩
    simp [get_weather, wmiss hmiss, hf]
  · refine ⟨by simp [get_weather, wmiss hmiss, hf], fun f2 => ?_⟩
    cases f2 with
    | none => simp [get_weather, wmiss hmiss]
    | some x => simp [get_weather, wmiss hmiss]
  · simp [get_nasa_image, hl, hf]
  · simp [get_nasa_image, nmiss hmiss, hf]
  · refine ⟨by simp [get_nasa_image, nmiss hmiss, hf], fun f2 => ?_⟩
    cases f2 with
    | none => simp [get_nasa_image, nmiss hmiss]
    | some x => simp [get_nasa_image, nmiss hmiss]

/-- Witness for C1: a fresh hit served from cache without a fetch, an
expired entry refreshed in place, a failed refresh leaving the cache
untouched while a retry fetches again, and an expired astronomy cell whose
failed refresh is reported. -/
theorem c1_witness :
    get_weather (δ := ℕ) [("paris", 7, 100)] (some 9) 350 "Paris" =
      (some 7, [("paris", 7, 100)], false) ∧
    get_weather (δ := ℕ) [("paris", 7, 100)] (some 9) 400 "Paris" =
      (some 9, dictInsert [("paris", 7, 100)] (pyLower "Paris") (9, 400), true) ∧
    get_weather (δ := ℕ) [("paris", 7, 100)] none 400 "Paris" =
      (none, [("paris", 7, 100)], true) ∧
    (get_weather (δ := ℕ) [("paris", 7, 100)] none 400 "Paris").2.2 = true ∧
    get_nasa_image (ν := ℕ) (some (3, 0)) none 43200 = (none, some (3, 0), true) := by
  refine ⟨?_, ?_, ?_, ?_, ?_⟩
  · exact (c1_cache_aside_contract [("paris", 7, 100)] (some (3, 0)) (some 9) none
      350 100 "Paris" 7 3).1 (by decide) (by decide)
  · exact ((c1_cache_aside_contract [("paris", 7, 100)] (some (3, 0)) (some 9) none
      400 100 "Paris" 9 3).2.1 (by decide) rfl).1
  · exact ((c1_cache_aside_contract [("paris", 7, 100)] (some (3, 0)) none none
      400 100 "Paris" 9 3).2.2.1 (by decide) rfl).1
  · exact ((c1_cache_aside_contract [("paris", 7, 100)] (some (3, 0)) none none
      400 100 "Paris" 9 3).2.2.1 (by decide) rfl).2 none
  · exact ((c1_cache_aside_contract (δ := ℕ) [("paris", 7, 100)] (some (3, 0)) none none
      43200 0 "Paris" 9 3).2.2.2.2.2 (by decide) rfl).1
